import Mathlib

/-!
Verification of `src/real_estate_sim.py` (class `HousingMarket`).

The Python program is shallowly embedded as follows.

* Configuration values (constructor arguments, the attributes set by
  `__init__`) are ideal numbers: `ℚ` (Python scalars are decimal
  literals, so every value arising in the configuration is rational).
* The simulation columns built by `run_simulation` involve the real
  12-th root `(1+growth)**(1/12)` and the real `years`-th root in
  `calc_return`, so the month table lives in `ℝ` (`Real.rpow` for the
  fractional powers, idealizing IEEE float arithmetic).
* Python exceptions are modelled with `Except PyErr`; a raised
  exception is `.error e` with `e` naming the Python exception class.
* The object state is split into `HMConfig` (the attributes assigned
  by `__init__` and never re-assigned afterwards) and the attributes
  `self.years` / `self.pretax_df` that `run_simulation` creates or
  overwrites on each call (`years_attr`, `pretax_df`).
-/

namespace RealEstateSim

/-- The Python exception classes that the embedded code can raise. -/
inductive PyErr where
  | typeError
  | valueError
  | zeroDivisionError
  | attributeError
  deriving DecidableEq

/-- A Python number as passed to the constructor: an `int` or a `float`
(the float's mathematical value idealized as a rational). -/
inductive PyNum where
  | int (n : ℤ)
  | float (q : ℚ)
  deriving DecidableEq

/-- The mathematical value of a Python number. -/
def PyNum.val : PyNum → ℚ
  | .int n => (n : ℚ)
  | .float q => q

/-- `str(x).isnumeric()` for a Python number `x` (line 34 of the source):
`str` of an `int` is all-numeric exactly when the int is nonnegative
(a minus sign is not a numeric character); `str` of a `float` always
contains `.` or `e`, so it is never numeric. -/
def PyNum.strIsNumeric : PyNum → Bool
  | .int n => decide (0 ≤ n)
  | .float _ => false

/-- The `price_to_rent` constructor argument: a single number or a
2-tuple (the only tuple shape the spec and the code's docstring use). -/
inductive PtrArg where
  | num (v : PyNum)
  | pair (a b : ℚ)
  deriving DecidableEq

/-- The attributes assigned by `HousingMarket.__init__` (lines 29-58)
and read, but never written, by the simulation methods. -/
structure HMConfig where
  mkt_value : Option ℚ
  monthly_rent : Option ℚ
  growth : ℚ
  price_to_rent : Option (ℚ × ℚ)
  capital_gain : ℚ
  transaction_fee : ℚ
  mortgage_rate : ℚ
  property_tax_annual : ℚ
  mortgage_fee : ℚ
  downpayment : ℚ
  management_fee : ℚ
  rental_tax_n_depreciation : ℚ
  interest_rate : ℚ
  capital : Option ℚ

/-- The checkpoint `self.pretax_df` (line 86): the month table as it
stands after line 85, columns `month, years, growth, cum_growth,
market_value, ptr_ratio, monthly_rent`.  Columns are functions of the
0-based row index; `N` is the number of rows. -/
structure PretaxTable where
  N : ℕ
  month : ℕ → ℕ
  year : ℕ → ℕ
  growth_m : ℝ
  cum_growth : ℕ → ℝ
  market_value : ℕ → ℝ
  ptr_ratio : ℕ → ℝ
  monthly_rent : ℕ → ℝ

/-- The full month table (`df`) returned by `run_simulation`. -/
structure RunTable where
  N : ℕ
  month : ℕ → ℕ
  year : ℕ → ℕ
  growth_m : ℝ
  cum_growth : ℕ → ℝ
  market_value : ℕ → ℝ
  ptr_ratio : ℕ → ℝ
  monthly_rent : ℕ → ℝ
  monthly_mortgage : ℕ → ℝ
  monthly_spending : ℕ → ℝ
  net_income : ℕ → ℝ
  discount_factor : ℕ → ℝ
  discounted_net_income : ℕ → ℝ

/-- The state of a `HousingMarket` object: the constructor-assigned
configuration plus the attributes created later by `run_simulation`. -/
structure HM where
  config : HMConfig
  years_attr : Option ℕ
  pretax_df : Option PretaxTable

/-- Outcome of running `__init__`: whether the line-49 diagnostic was
printed, and either the constructed object or the Python exception the
constructor raised. -/
structure InitOutcome where
  printed_diag : Bool
  result : Except PyErr HM

/-- Python `x or default` for an optional float `x` (line 56:
`mkt_value or 5e5`): `None` and `0.0` are falsy. -/
def pyOrDefault (x : Option ℚ) (d : ℚ) : ℚ :=
  match x with
  | none => d
  | some v => if v = 0 then d else v

/-- `HousingMarket.__init__` (lines 6-60).  The positional order of the
rate arguments follows the Python signature. -/
def HM.init (mkt_value monthly_rent : Option ℚ) (growth : ℚ) (price_to_rent : Option PtrArg)
    (rental_tax_n_depreciation capital_gain transaction_fee mortgage_rate property_tax
      interest_rate mortgage_fee downpayment management_fee : ℚ) : InitOutcome :=
  -- lines 32-37: runtime type dispatch on price_to_rent
  let ptr0 : Option (ℚ × ℚ) :=
    match price_to_rent with
    | some (.pair a b) => some (a, b)
    | some (.num v) => if v.strIsNumeric then some (v.val, v.val) else none
    | none => none
  -- lines 29-46: attribute assignments
  let hm0 : HM :=
    { config :=
        { mkt_value := mkt_value, monthly_rent := monthly_rent, growth := growth,
          price_to_rent := ptr0, capital_gain := capital_gain,
          transaction_fee := transaction_fee, mortgage_rate := mortgage_rate,
          property_tax_annual := property_tax, mortgage_fee := mortgage_fee,
          downpayment := downpayment, management_fee := management_fee,
          rental_tax_n_depreciation := rental_tax_n_depreciation,
          interest_rate := interest_rate, capital := none },
      years_attr := none, pretax_df := none }
  -- line 58: self.capital = self.mkt_value * downpayment
  -- (`None * downpayment` raises TypeError)
  let setCap : HM → InitOutcome := fun hm =>
    match hm.config.mkt_value with
    | none => ⟨false, .error .typeError⟩
    | some v =>
        ⟨false, .ok { hm with config := { hm.config with capital := some (v * downpayment) } }⟩
  -- lines 48-50: print a diagnostic and return early
  if mkt_value = none ∧ monthly_rent = none ∧ price_to_rent = none then
    ⟨true, .ok hm0⟩
  else
    match mkt_value, monthly_rent with
    | some mv, some r =>
        -- lines 52-54 (`mkt_value / (12.0 * monthly_rent)`, ZeroDivisionError on rent 0)
        if r = 0 then ⟨false, .error .zeroDivisionError⟩
        else
          setCap { hm0 with config :=
            { hm0.config with price_to_rent := some (mv / (12 * r), mv / (12 * r)) } }
    | _, _ =>
        match price_to_rent with
        | some _ =>
            -- lines 55-56: default market value
            setCap { hm0 with config :=
              { hm0.config with mkt_value := some (pyOrDefault mkt_value 500000) } }
        | none => setCap hm0

/-- `HousingMarket.calc_property_tax` (lines 148-152): the per-row
property-tax expense, nonzero only when the `month` column is 12. -/
noncomputable def calc_property_tax (property_tax_annual : ℚ) (month : ℕ)
    (market_value : ℝ) : ℝ :=
  if month = 12 then market_value * (property_tax_annual : ℝ) else 0

/-- The series built by lines 159-160 of `calc_running_ptr_ratio`:
`start + (end-start)/(len(df)-1) * index`, one value per row. -/
def ptrList (K : Type) [Field K] (N : ℕ) (s e : K) : List K :=
  (List.range N).map fun (i : ℕ) => s + (e - s) / ((N : K) - 1) * (i : K)

/-- `HousingMarket.calc_running_ptr_ratio` (lines 154-163), generic in
the number field.  `len(None)` in the arity assert raises TypeError;
`(end-start)/(len(df)-1)` raises ZeroDivisionError when `len(df) = 1`
(the subtraction `len(df)-1` is Python int arithmetic, hence the `ℤ`
cast in the zero test). -/
def calc_running_ptr_ratio (K : Type) [Field K] (N : ℕ) (ptr : Option (K × K)) :
    Except PyErr (List K) :=
  match ptr with
  | none => .error .typeError
  | some (s, e) =>
      if (N : ℤ) - 1 = 0 then .error .zeroDivisionError
      else .ok (ptrList K N s e)

/-- `HousingMarket.mortgage_payments` (lines 140-146): the constant
monthly payment written into the `monthly_mortgage` column.  All
quantities are Python scalars; the annuity denominator `(1+r_m)^n - 1`
raises ZeroDivisionError when it is zero, and `None * ...` for an
unresolved market value raises TypeError. -/
def mortgage_payments (c : HMConfig) (n : ℕ) : Except PyErr ℚ :=
  match c.mkt_value with
  | none => .error .typeError
  | some mv =>
      let p := mv * (1 - c.downpayment) * (1 + c.mortgage_fee)
      let rate_m := c.mortgage_rate / 12
      if (1 + rate_m) ^ n - 1 = 0 then .error .zeroDivisionError
      else .ok (p * rate_m * (1 + rate_m) ^ n / ((1 + rate_m) ^ n - 1))

/-- The rows of `df.groupby("years")` for one key `y`: the row indices
whose `years` column equals `y`. -/
def yearFiber (N : ℕ) (year : ℕ → ℕ) (y : ℕ) : Finset ℕ :=
  (Finset.range N).filter fun i => year i = y

/-- `HousingMarket.calc_annual_ret` (lines 134-138): yearly net income
divided by the yearly mean market value (mean = sum / group size). -/
noncomputable def calc_annual_ret (fiber : Finset ℕ) (market_value net_income : ℕ → ℝ) : ℝ :=
  (∑ i ∈ fiber, net_income i) / ((∑ i ∈ fiber, market_value i) / (fiber.card : ℝ))

/-- The summary dictionary returned by `run_simulation` /
`calc_return` (lines 129-132); the two per-year series are ordered
ascending by year key, as `groupby` sorts its keys. -/
structure SimResult where
  total_ret : ℝ
  rental_ret : List (ℕ × ℝ)
  appreciation : ℝ
  income_stream : List (ℕ × ℝ)

/-- Lines 75-85 of `run_simulation`: the month table up to the
`monthly_rent` column, i.e. the state checkpointed as
`self.pretax_df`.  `mv` is the resolved market value, `pl` the series
returned by `calc_running_ptr_ratio`, `N = years*12` the row count. -/
noncomputable def mkPretax (c : HMConfig) (N : ℕ) (mv : ℚ) (pl : List ℝ) : PretaxTable :=
  let month : ℕ → ℕ := fun i => i % 12 + 1
  let year : ℕ → ℕ := fun i => i / 12 + 1
  -- line 81: monthly growth (1+g)^(1/12) - 1, a real 12th root
  let growth_m : ℝ := ((1 : ℝ) + (c.growth : ℝ)) ^ ((1 : ℝ) / 12) - 1
  -- line 82: cumulative product of the constant column (growth+1)
  let cum_growth : ℕ → ℝ := fun i => (growth_m + 1) ^ (i + 1)
  let market_value : ℕ → ℝ := fun i => (mv : ℝ) * cum_growth i
  let ptr_ratio : ℕ → ℝ := fun i => pl.getD i 0
  let monthly_rent : ℕ → ℝ := fun i => market_value i / ptr_ratio i / 12
  ⟨N, month, year, growth_m, cum_growth, market_value, ptr_ratio, monthly_rent⟩

/-- Lines 89-98 of `run_simulation`: extend the checkpointed table with
the mortgage, spending and net-income columns (`mpay` is the scalar
returned by `mortgage_payments`).  The discount columns are added
later, inside `calc_return`; until then they hold no meaningful data
(the DataFrame simply does not have them yet). -/
noncomputable def extendTable (c : HMConfig) (pt : PretaxTable) (mpay : ℚ) : RunTable :=
  let monthly_mortgage : ℕ → ℝ := fun _ => (mpay : ℝ)
  let monthly_spending : ℕ → ℝ := fun i =>
    pt.monthly_rent i * (c.management_fee : ℝ)
      + (pt.monthly_rent i - monthly_mortgage i) * (c.rental_tax_n_depreciation : ℝ)
      + calc_property_tax c.property_tax_annual (pt.month i) (pt.market_value i)
  let net_income : ℕ → ℝ := fun i =>
    pt.monthly_rent i - monthly_mortgage i - monthly_spending i
  ⟨pt.N, pt.month, pt.year, pt.growth_m, pt.cum_growth, pt.market_value, pt.ptr_ratio,
    pt.monthly_rent, monthly_mortgage, monthly_spending, net_income, fun _ => 0, fun _ => 0⟩

/-- `HousingMarket.calc_return` (lines 102-132).  It writes the two
discount columns into the table and computes the summary; the caller's
`years` is `self.years`, set at line 72 of the current run. -/
noncomputable def calc_return (interest_rate transaction_fee capital_gain : ℚ)
    (capital : ℚ) (years : ℕ) (df0 : RunTable) : SimResult × RunTable :=
  let r : ℝ := 1 + (interest_rate : ℝ) / 12
  let discount_factor : ℕ → ℝ := fun i => r ^ (i + 1)
  let discounted : ℕ → ℝ := fun i => df0.net_income i / discount_factor i
  let df : RunTable :=
    { df0 with discount_factor := discount_factor, discounted_net_income := discounted }
  let pv : ℝ := ∑ i ∈ Finset.range df.N, discounted i
  -- lines 110-112: discounted terminal capital gain
  let cap_gain : ℝ :=
    (df.market_value (df.N - 1) * (1 - (transaction_fee : ℝ)) - (capital : ℝ))
      * (1 - (capital_gain : ℝ)) / discount_factor (df.N - 1)
  let total_ret : ℝ := (pv + cap_gain + (capital : ℝ)) / (capital : ℝ)
  let annualized_total_ret : ℝ := total_ret ^ ((1 : ℝ) / (years : ℝ)) - 1
  let annualized_appreciation : ℝ := (cap_gain / (capital : ℝ)) ^ ((1 : ℝ) / (years : ℝ)) - 1
  -- lines 123-126: groupby("years"); the keys present are 1..years, sorted
  let annual_rental_ret : List (ℕ × ℝ) := (List.range years).map fun y =>
    (y + 1, calc_annual_ret (yearFiber df.N df.year (y + 1)) df.market_value df.net_income)
  let annual_income_stream : List (ℕ × ℝ) := (List.range years).map fun y =>
    (y + 1, ∑ i ∈ yearFiber df.N df.year (y + 1), df.net_income i)
  ({ total_ret := annualized_total_ret, rental_ret := annual_rental_ret,
     appreciation := annualized_appreciation, income_stream := annual_income_stream }, df)

/-- The computation of `run_simulation` (lines 62-100) as a function of
the configuration attributes it reads: the new `pretax_df` checkpoint
(if line 86 was reached) and the returned value or raised exception.
A `years < 1` makes `pd.concat` of zero copies raise ValueError;
`None * cum_growth` at line 83 raises TypeError; a missing `capital`
attribute at line 111 would raise AttributeError. -/
noncomputable def run_core (c : HMConfig) (years : ℕ) :
    Option PretaxTable × Except PyErr (SimResult × RunTable) :=
  if years = 0 then (none, .error .valueError)
  else
    match c.mkt_value with
    | none => (none, .error .typeError)
    | some mv =>
      match calc_running_ptr_ratio ℝ (12 * years)
          (c.price_to_rent.map fun p => ((p.1 : ℝ), (p.2 : ℝ))) with
      | .error e => (none, .error e)
      | .ok pl =>
        let pt := mkPretax c (12 * years) mv pl
        match mortgage_payments c (12 * years) with
        | .error e => (some pt, .error e)
        | .ok mpay =>
          match c.capital with
          | none => (some pt, .error .attributeError)
          | some cap =>
            (some pt, .ok (calc_return c.interest_rate c.transaction_fee c.capital_gain
              cap years (extendTable c pt mpay)))

/-- `HousingMarket.run_simulation` (lines 62-100): the method mutates
the object (line 72 sets `self.years`, line 86 sets `self.pretax_df`)
and returns the results dictionary together with the month table, or
raises.  The returned pair is (object state after the call, returned
value / exception). -/
noncomputable def run_simulation (hm : HM) (years : ℕ) :
    HM × Except PyErr (SimResult × RunTable) :=
  let out := run_core hm.config years
  ({ hm with
      years_attr := some years,
      pretax_df := (match out.1 with | some pt => some pt | none => hm.pretax_df) },
   out.2)

/-- A concrete resolved scenario used to instantiate the theorems: the
source's default rates, `mkt_value = 500000`, constant price-to-rent
pair `(20, 20)`, `capital = 500000 * 0.03 = 15000`. -/
def cfgEx : HMConfig :=
  { mkt_value := some 500000, monthly_rent := none, growth := 1/20,
    price_to_rent := some (20, 20), capital_gain := 1/5, transaction_fee := 1/20,
    mortgage_rate := 1/25, property_tax_annual := 3/200, mortgage_fee := 1/100,
    downpayment := 3/100, management_fee := 2/25, rental_tax_n_depreciation := 1/10,
    interest_rate := 3/200, capital := some 15000 }

/-- A freshly constructed object holding `cfgEx`. -/
def hmEx : HM := { config := cfgEx, years_attr := none, pretax_df := none }

/-- The same scenario with `mortgage_rate = 0`. -/
def hmZeroRate : HM :=
  { config := { cfgEx with mortgage_rate := 0 }, years_attr := none, pretax_df := none }

/-- The constant monthly mortgage payment of a resolved run, as a
rational (lines 142-145): `P * r_m * (1+r_m)^n / ((1+r_m)^n - 1)`. -/
def payQ (c : HMConfig) (mv : ℚ) (n : ℕ) : ℚ :=
  mv * (1 - c.downpayment) * (1 + c.mortgage_fee) * (c.mortgage_rate / 12)
    * (1 + c.mortgage_rate / 12) ^ n / ((1 + c.mortgage_rate / 12) ^ n - 1)

/-- The month table of a successful run of a resolved scenario. -/
noncomputable def resolvedTable (c : HMConfig) (years : ℕ) (mv pa pb cap : ℚ) : RunTable :=
  (calc_return c.interest_rate c.transaction_fee c.capital_gain cap years
    (extendTable c (mkPretax c (12 * years) mv (ptrList ℝ (12 * years) (pa : ℝ) (pb : ℝ)))
      (payQ c mv (12 * years)))).2

/-- The summary dictionary of a successful run of a resolved scenario. -/
noncomputable def resolvedResult (c : HMConfig) (years : ℕ) (mv pa pb cap : ℚ) : SimResult :=
  (calc_return c.interest_rate c.transaction_fee c.capital_gain cap years
    (extendTable c (mkPretax c (12 * years) mv (ptrList ℝ (12 * years) (pa : ℝ) (pb : ℝ)))
      (payQ c mv (12 * years)))).1

/-! ### Helper lemmas -/

/-- Row `i < N` of the interpolated price-to-rent series. -/
theorem ptrList_getD (K : Type) [Field K] (N i : ℕ) (s e : K) (h : i < N) :
    (ptrList K N s e).getD i 0 = s + (e - s) / ((N : K) - 1) * (i : K) := by
  unfold ptrList
  rw [List.getD_eq_getElem?_getD, List.getElem?_map, List.getElem?_range h]
  rfl

/-- Sum of a mapped `List.range` as a `Finset.range` sum. -/
theorem list_range_map_sum (n : ℕ) (f : ℕ → ℝ) :
    ((List.range n).map f).sum = ∑ i ∈ Finset.range n, f i := by
  induction n with
  | zero => simp
  | succ n ih =>
      rw [List.range_succ, List.map_append, List.sum_append, Finset.sum_range_succ, ih]
      simp

/-- Grouping the `12 * years` months by the `years` column (value
`i / 12 + 1` at row `i`) partitions the rows: summing the group sums
over the keys `1..years` recovers the total sum. -/
theorem sum_yearFiber (years : ℕ) (f : ℕ → ℝ) :
    ∑ y ∈ Finset.range years, ∑ i ∈ yearFiber (12 * years) (fun i => i / 12 + 1) (y + 1), f i
      = ∑ i ∈ Finset.range (12 * years), f i := by
  have hfil : ∀ y, yearFiber (12 * years) (fun i => i / 12 + 1) (y + 1)
      = (Finset.range (12 * years)).filter fun i => i / 12 = y := by
    intro y
    unfold yearFiber
    exact Finset.filter_congr fun i _ => by
      show i / 12 + 1 = y + 1 ↔ i / 12 = y
      omega
  simp only [hfil]
  exact Finset.sum_fiberwise_of_maps_to
    (fun i hi => Finset.mem_range.2 (by have := Finset.mem_range.1 hi; omega)) f

/-- A resolved scenario (market value, price-to-rent pair and capital
all present), `years ≥ 1` and a nonzero annuity denominator make
`run_simulation` succeed, with the table and summary given by
`resolvedTable` / `resolvedResult`. -/
theorem run_core_resolved (c : HMConfig) (years : ℕ) (mv pa pb cap : ℚ)
    (h1 : c.mkt_value = some mv) (h2 : c.price_to_rent = some (pa, pb))
    (h3 : c.capital = some cap) (hy : years ≠ 0)
    (hd : (1 + c.mortgage_rate / 12) ^ (12 * years) - 1 ≠ 0) :
    run_core c years =
      (some (mkPretax c (12 * years) mv (ptrList ℝ (12 * years) (pa : ℝ) (pb : ℝ))),
       .ok (resolvedResult c years mv pa pb cap, resolvedTable c years mv pa pb cap)) := by
  have h12 : 12 * (years : ℤ) - 1 ≠ 0 := by omega
  simp [run_core, h1, h2, h3, hy, calc_running_ptr_ratio, mortgage_payments, h12, hd,
    resolvedResult, resolvedTable, payQ]

/-! ### Claims -/

/-- Claim C1, counterexample: constructing with `mkt_value=None,
monthly_rent=None, price_to_rent=None` does NOT raise any error.
`__init__` prints the line-49 diagnostic and completes normally,
silently producing an object whose market value, price-to-rent
trajectory and capital are all `None` — there is no ConfigurationError
(nor any other exception) at construction. -/
theorem claim1_counterexample :
    (HM.init none none (1/20) none (1/10) (1/5) (1/20) (1/25) (3/200) (3/200) (1/100)
        (3/100) (2/25)).printed_diag = true
    ∧ ((HM.init none none (1/20) none (1/10) (1/5) (1/20) (1/25) (3/200) (3/200) (1/100)
        (3/100) (2/25)).result.map fun hm =>
          (hm.config.mkt_value, hm.config.price_to_rent, hm.config.capital))
      = .ok (none, none, none) :=
  ⟨rfl, rfl⟩

/-- Claim C1 (amended): with `mkt_value=None, monthly_rent=None,
price_to_rent=None`, construction does not raise; it prints a
diagnostic message and returns early, leaving the market value and the
price-to-rent trajectory `None` and `capital` unset.  The resulting
object is unusable: `run_simulation` on it raises a raw TypeError for
any `years ≥ 1` (and a ValueError for `years < 1`) instead of
returning results. -/
theorem claim1_amended (growth rtd cg tf mr pt ir mf dp mgmt : ℚ) (years : ℕ)
    (hy : 1 ≤ years) :
    ∃ hm : HM,
      HM.init none none growth none rtd cg tf mr pt ir mf dp mgmt = ⟨true, .ok hm⟩
      ∧ hm.config.mkt_value = none ∧ hm.config.price_to_rent = none
      ∧ hm.config.capital = none
      ∧ (run_simulation hm years).2 = .error .typeError
      ∧ (run_simulation hm 0).2 = .error .valueError := by
  have hy0 : years ≠ 0 := by omega
  refine ⟨_, rfl, rfl, rfl, rfl, ?_, rfl⟩
  show (run_core _ years).2 = _
  unfold run_core
  rw [if_neg hy0]

/-- Witness for C1 (amended) at the default rates and `years = 1`. -/
theorem claim1_witness :
    ∃ hm : HM,
      HM.init none none (1/20) none (1/10) (1/5) (1/20) (1/25) (3/200) (3/200) (1/100)
          (3/100) (2/25) = ⟨true, .ok hm⟩
      ∧ hm.config.mkt_value = none ∧ hm.config.price_to_rent = none
      ∧ hm.config.capital = none
      ∧ (run_simulation hm 1).2 = .error .typeError
      ∧ (run_simulation hm 0).2 = .error .valueError :=
  claim1_amended (1/20) (1/10) (1/5) (1/20) (1/25) (3/200) (3/200) (1/100) (3/100)
    (2/25) 1 (by decide)

/-- Claim C2, counterexample: with `mkt_value=None, monthly_rent=None`
and `price_to_rent` the scalar float `20.5`, the resolved trajectory is
NOT `(20.5, 20.5)`: `str(20.5).isnumeric()` is false (the decimal
point is not a numeric character), so the scalar branch is skipped and
`self.price_to_rent` stays `None`, while the market value still
defaults to `500000`. -/
theorem claim2_counterexample :
    ((HM.init none none (1/20) (some (.num (.float (41/2)))) (1/10) (1/5) (1/20) (1/25)
        (3/200) (3/200) (1/100) (3/100) (2/25)).result.map fun hm =>
          (hm.config.price_to_rent, hm.config.mkt_value))
      = .ok (none, some 500000) :=
  rfl

/-- Claim C2 (amended): when `mkt_value` and `monthly_rent` are not
both supplied and `price_to_rent` is a single scalar, the trajectory
resolves to `(v, v)` only when the scalar is a Python `int` whose
`str` is numeric (a nonnegative integer); a scalar Python `float`
(whose `str` always contains a decimal point) leaves the trajectory
`None`.  In either scalar case, when `mkt_value` is absent it defaults
to `500000`. -/
theorem claim2_amended (mkt rent : Option ℚ) (growth rtd cg tf mr pt ir mf dp mgmt : ℚ)
    (n : ℕ) (q : ℚ) (hnb : mkt = none ∨ rent = none) :
    (((HM.init mkt rent growth (some (.num (.int (n : ℤ)))) rtd cg tf mr pt ir mf dp
        mgmt).result.map fun hm => hm.config.price_to_rent)
      = .ok (some ((n : ℚ), (n : ℚ))))
    ∧ (((HM.init mkt rent growth (some (.num (.float q))) rtd cg tf mr pt ir mf dp
        mgmt).result.map fun hm => hm.config.price_to_rent) = .ok none)
    ∧ (mkt = none →
        (((HM.init mkt rent growth (some (.num (.int (n : ℤ)))) rtd cg tf mr pt ir mf dp
            mgmt).result.map fun hm => hm.config.mkt_value) = .ok (some 500000))
        ∧ (((HM.init mkt rent growth (some (.num (.float q))) rtd cg tf mr pt ir mf dp
            mgmt).result.map fun hm => hm.config.mkt_value) = .ok (some 500000))) := by
  have hnum : (PyNum.int (n : ℤ)).strIsNumeric = true := by
    simp [PyNum.strIsNumeric]
  rcases mkt with _ | v
  · rcases rent with _ | r
    · exact ⟨by simp [HM.init, hnum, PyNum.val, pyOrDefault, Except.map],
             by simp [HM.init, PyNum.strIsNumeric, pyOrDefault, Except.map],
             fun _ => ⟨by simp [HM.init, hnum, PyNum.val, pyOrDefault, Except.map],
                       by simp [HM.init, PyNum.strIsNumeric, pyOrDefault, Except.map]⟩⟩
    · exact ⟨by simp [HM.init, hnum, PyNum.val, pyOrDefault, Except.map],
             by simp [HM.init, PyNum.strIsNumeric, pyOrDefault, Except.map],
             fun _ => ⟨by simp [HM.init, hnum, PyNum.val, pyOrDefault, Except.map],
                       by simp [HM.init, PyNum.strIsNumeric, pyOrDefault, Except.map]⟩⟩
  · rcases rent with _ | r
    · exact ⟨by simp [HM.init, hnum, PyNum.val, pyOrDefault, Except.map],
             by simp [HM.init, PyNum.strIsNumeric, pyOrDefault, Except.map],
             fun hvn => absurd hvn (by simp)⟩
    · rcases hnb with hnb | hnb <;> exact absurd hnb (by simp)

/-- Witness for C2 (amended): `mkt_value=None, monthly_rent=None`,
scalar int `25` and scalar float `20.5`. -/
theorem claim2_witness :
    (((HM.init none none (1/20) (some (.num (.int (25 : ℤ)))) (1/10) (1/5) (1/20) (1/25)
        (3/200) (3/200) (1/100) (3/100) (2/25)).result.map fun hm =>
          hm.config.price_to_rent) = .ok (some ((25 : ℚ), (25 : ℚ))))
    ∧ (((HM.init none none (1/20) (some (.num (.float (41/2)))) (1/10) (1/5) (1/20) (1/25)
        (3/200) (3/200) (1/100) (3/100) (2/25)).result.map fun hm =>
          hm.config.price_to_rent) = .ok none) := by
  have h := claim2_amended none none (1/20) (1/10) (1/5) (1/20) (1/25) (3/200) (3/200)
    (1/100) (3/100) (2/25) 25 (41/2) (Or.inl rfl)
  exact ⟨h.1, h.2.1⟩

/-- Claim C3, counterexample: the interpolation is NOT total at
`N = 1`.  There is no division-by-zero guard: line 160 computes
`(end-start)/(len(df)-1)` with `len(df)-1 = 0`, which raises a raw
ZeroDivisionError. -/
theorem claim3_counterexample :
    calc_running_ptr_ratio ℚ 1 (some (20, 30)) = .error .zeroDivisionError :=
  rfl

/-- Claim C3 (amended): for every trajectory `(start, end)` and every
`N ≥ 2` the interpolation succeeds and row `i` equals
`start + (end-start)*i/(N-1)`, with row `0 = start` and row
`N-1 = end` exactly.  For `N = 1` the division by `N-1 = 0` is
unguarded and raises ZeroDivisionError (unreachable through the public
`years` parameter, since `N = years*12 ≥ 12`). -/
theorem claim3_amended (N : ℕ) (s e : ℚ) (hN : 2 ≤ N) :
    calc_running_ptr_ratio ℚ N (some (s, e)) = .ok (ptrList ℚ N s e)
    ∧ (ptrList ℚ N s e).length = N
    ∧ (∀ i, i < N → (ptrList ℚ N s e).getD i 0 = s + (e - s) * (i : ℚ) / ((N : ℚ) - 1))
    ∧ (ptrList ℚ N s e).getD 0 0 = s
    ∧ (ptrList ℚ N s e).getD (N - 1) 0 = e := by
  have hNz : (N : ℤ) - 1 ≠ 0 := by omega
  have hNQ : (N : ℚ) - 1 ≠ 0 := by
    have h2 : (2 : ℚ) ≤ (N : ℚ) := by exact_mod_cast hN
    linarith
  refine ⟨by simp [calc_running_ptr_ratio, hNz], by simp [ptrList], ?_, ?_, ?_⟩
  · intro i hi
    rw [ptrList_getD ℚ N i s e hi]
    ring
  · rw [ptrList_getD ℚ N 0 s e (by omega)]
    simp
  · rw [ptrList_getD ℚ N (N - 1) s e (by omega)]
    have h1 : ((N - 1 : ℕ) : ℚ) = (N : ℚ) - 1 := by
      rw [Nat.cast_sub (by omega : 1 ≤ N), Nat.cast_one]
    rw [h1, div_mul_cancel₀ _ hNQ]
    ring

/-- Witness for C3 (amended) at `N = 24`, trajectory `(20, 30)`. -/
theorem claim3_witness :
    calc_running_ptr_ratio ℚ 24 (some (20, 30)) = .ok (ptrList ℚ 24 20 30)
    ∧ (ptrList ℚ 24 20 30).getD 0 0 = 20
    ∧ (ptrList ℚ 24 20 30).getD 23 0 = 30 :=
  ⟨(claim3_amended 24 20 30 (by decide)).1,
   (claim3_amended 24 20 30 (by decide)).2.2.2.1,
   (claim3_amended 24 20 30 (by decide)).2.2.2.2⟩

/-- Claim C4, counterexample: with `mortgageAnnualRate = 0` the run is
NOT reported as a named DomainError condition: the degenerate annuity
denominator raises a raw ZeroDivisionError; and `years < 1` raises a
raw ValueError out of the empty `pd.concat`, likewise unnamed. -/
theorem claim4_counterexample :
    (run_simulation hmZeroRate 1).2 = .error .zeroDivisionError
    ∧ (run_simulation hmEx 0).2 = .error .valueError := by
  constructor
  · show (run_core hmZeroRate.config 1).2 = _
    simp [run_core, hmZeroRate, cfgEx, calc_running_ptr_ratio, mortgage_payments]
  · rfl

/-- Claim C4 (amended): for every resolved scenario with
`mortgageAnnualRate = 0` and `years ≥ 1`, the run propagates the raw
arithmetic fault — a ZeroDivisionError from the annuity denominator
`(1+0)^n - 1 = 0`; and `years < 1` propagates a raw ValueError from
concatenating zero month blocks.  Neither is converted into a distinct
named DomainError condition. -/
theorem claim4_amended (hm : HM) (years : ℕ) (mv pa pb : ℚ)
    (h1 : hm.config.mkt_value = some mv) (h2 : hm.config.price_to_rent = some (pa, pb))
    (hr : hm.config.mortgage_rate = 0) (hy : 1 ≤ years) :
    (run_simulation hm years).2 = .error .zeroDivisionError
    ∧ (run_simulation hm 0).2 = .error .valueError := by
  constructor
  · have hy0 : years ≠ 0 := by omega
    have h12 : 12 * (years : ℤ) - 1 ≠ 0 := by omega
    show (run_core hm.config years).2 = _
    simp [run_core, h1, h2, hr, hy0, calc_running_ptr_ratio, mortgage_payments, h12]
  · rfl

/-- Witness for C4 (amended) at the zero-rate scenario, `years = 2`. -/
theorem claim4_witness :
    (run_simulation hmZeroRate 2).2 = .error .zeroDivisionError
    ∧ (run_simulation hmZeroRate 0).2 = .error .valueError :=
  claim4_amended hmZeroRate 2 500000 20 20 rfl rfl rfl (by decide)

/-- Claim C10: constructing with `monthly_rent` alone (`mkt_value=None`
and `price_to_rent=None`) does not print the diagnostic and resolves
no trajectory; `__init__` instead raises a raw TypeError at line 58
when computing `self.capital = None * downpayment` — an input
combination the all-`None` check does not cover. -/
theorem claim10_monthly_rent_alone (r growth rtd cg tf mr pt ir mf dp mgmt : ℚ) :
    HM.init none (some r) growth none rtd cg tf mr pt ir mf dp mgmt
      = ⟨false, .error .typeError⟩ :=
  rfl

/-! ### Projection lemmas for the resolved run -/

/-- The `month` column of a resolved run is `i % 12 + 1` (the pattern
`1..12` repeated `years` times). -/
theorem resolvedTable_month (c : HMConfig) (years : ℕ) (mv pa pb cap : ℚ) (i : ℕ) :
    (resolvedTable c years mv pa pb cap).month i = i % 12 + 1 := rfl

/-- Every entry of the `monthly_mortgage` column is the scalar `payQ`. -/
theorem resolvedTable_mortgage (c : HMConfig) (years : ℕ) (mv pa pb cap : ℚ) (i : ℕ) :
    (resolvedTable c years mv pa pb cap).monthly_mortgage i
      = ((payQ c mv (12 * years) : ℚ) : ℝ) := rfl

/-- The `monthly_spending` column decomposes into the management fee,
the tax-and-depreciation term, and the `calc_property_tax` term. -/
theorem resolvedTable_spending (c : HMConfig) (years : ℕ) (mv pa pb cap : ℚ) (i : ℕ) :
    (resolvedTable c years mv pa pb cap).monthly_spending i
      = (resolvedTable c years mv pa pb cap).monthly_rent i * (c.management_fee : ℝ)
        + ((resolvedTable c years mv pa pb cap).monthly_rent i
            - (resolvedTable c years mv pa pb cap).monthly_mortgage i)
          * (c.rental_tax_n_depreciation : ℝ)
        + calc_property_tax c.property_tax_annual
            ((resolvedTable c years mv pa pb cap).month i)
            ((resolvedTable c years mv pa pb cap).market_value i) := rfl

/-- The `discount_factor` column of a resolved run. -/
theorem resolvedTable_discount_factor (c : HMConfig) (years : ℕ) (mv pa pb cap : ℚ) (i : ℕ) :
    (resolvedTable c years mv pa pb cap).discount_factor i
      = (1 + (c.interest_rate : ℝ) / 12) ^ (i + 1) := rfl

/-- The `income_stream` entry of the summary of a resolved run. -/
theorem resolvedResult_income_stream (c : HMConfig) (years : ℕ) (mv pa pb cap : ℚ) :
    (resolvedResult c years mv pa pb cap).income_stream
      = (List.range years).map fun y =>
          (y + 1, ∑ i ∈ yearFiber (12 * years) (fun i => i / 12 + 1) (y + 1),
            (resolvedTable c years mv pa pb cap).net_income i) := rfl

/-- `calc_property_tax` written with the rate on the left. -/
theorem calc_property_tax_comm (ptA : ℚ) (m : ℕ) (v : ℝ) :
    calc_property_tax ptA m v = if m = 12 then (ptA : ℝ) * v else 0 := by
  unfold calc_property_tax
  split <;> ring

/-- The annuity denominator of `cfgEx` at `years = 1` is nonzero. -/
theorem hmEx_denom : (1 + hmEx.config.mortgage_rate / 12) ^ (12 * 1) - 1 ≠ 0 := by
  norm_num [hmEx, cfgEx]

/-- Claim C5: for every resolved scenario and `years ≥ 1` (and the
annuity denominator nonzero, which a zero mortgage rate violates — see
C4), the run succeeds, the monthly mortgage payment is the same value
in every month, and that value is
`P*r_m*(1+r_m)^n / ((1+r_m)^n - 1)` with
`P = initialMarketValue*(1-downpaymentFraction)*(1+mortgageOriginationFeeRate)`,
`r_m = mortgageAnnualRate/12` and `n = years*12`. -/
theorem claim5_mortgage_payment (hm : HM) (years : ℕ) (mv pa pb cap : ℚ)
    (h1 : hm.config.mkt_value = some mv) (h2 : hm.config.price_to_rent = some (pa, pb))
    (h3 : hm.config.capital = some cap) (hy : 1 ≤ years)
    (hd : (1 + hm.config.mortgage_rate / 12) ^ (12 * years) - 1 ≠ 0) :
    ∃ res df, (run_simulation hm years).2 = .ok (res, df)
      ∧ (∀ i j, df.monthly_mortgage i = df.monthly_mortgage j)
      ∧ (∀ i, df.monthly_mortgage i =
          (mv : ℝ) * (1 - (hm.config.downpayment : ℝ)) * (1 + (hm.config.mortgage_fee : ℝ))
            * ((hm.config.mortgage_rate : ℝ) / 12)
            * (1 + (hm.config.mortgage_rate : ℝ) / 12) ^ (12 * years)
            / ((1 + (hm.config.mortgage_rate : ℝ) / 12) ^ (12 * years) - 1)) := by
  have hrun := run_core_resolved hm.config years mv pa pb cap h1 h2 h3 (by omega) hd
  refine ⟨resolvedResult hm.config years mv pa pb cap,
    resolvedTable hm.config years mv pa pb cap, ?_, fun i j => rfl, ?_⟩
  · show (run_core hm.config years).2 = _
    rw [hrun]
  · intro i
    rw [resolvedTable_mortgage]
    unfold payQ
    push_cast
    ring

/-- Witness for C5 at `cfgEx`, `years = 1`. -/
theorem claim5_witness :
    ∃ res df, (run_simulation hmEx 1).2 = .ok (res, df)
      ∧ (∀ i j, df.monthly_mortgage i = df.monthly_mortgage j)
      ∧ (∀ i, df.monthly_mortgage i =
          ((500000 : ℚ) : ℝ) * (1 - (hmEx.config.downpayment : ℝ))
            * (1 + (hmEx.config.mortgage_fee : ℝ))
            * ((hmEx.config.mortgage_rate : ℝ) / 12)
            * (1 + (hmEx.config.mortgage_rate : ℝ) / 12) ^ (12 * 1)
            / ((1 + (hmEx.config.mortgage_rate : ℝ) / 12) ^ (12 * 1) - 1)) :=
  claim5_mortgage_payment hmEx 1 500000 20 20 15000 rfl rfl rfl (by decide) hmEx_denom

/-- Claim C6: in every month record of a resolved run, the
property-tax contribution to the monthly operating expense equals
`annualPropertyTaxRate * marketValue` of that month when the
within-year month index is 12 (`i % 12 + 1 = 12`), and zero in every
other month. -/
theorem claim6_property_tax (hm : HM) (years : ℕ) (mv pa pb cap : ℚ)
    (h1 : hm.config.mkt_value = some mv) (h2 : hm.config.price_to_rent = some (pa, pb))
    (h3 : hm.config.capital = some cap) (hy : 1 ≤ years)
    (hd : (1 + hm.config.mortgage_rate / 12) ^ (12 * years) - 1 ≠ 0) :
    ∃ res df, (run_simulation hm years).2 = .ok (res, df)
      ∧ (∀ i, df.month i = i % 12 + 1)
      ∧ (∀ i, df.monthly_spending i =
          df.monthly_rent i * (hm.config.management_fee : ℝ)
            + (df.monthly_rent i - df.monthly_mortgage i)
              * (hm.config.rental_tax_n_depreciation : ℝ)
            + (if df.month i = 12
                then (hm.config.property_tax_annual : ℝ) * df.market_value i else 0))
      ∧ (∀ i, df.month i ≠ 12 →
          df.monthly_spending i =
            df.monthly_rent i * (hm.config.management_fee : ℝ)
              + (df.monthly_rent i - df.monthly_mortgage i)
                * (hm.config.rental_tax_n_depreciation : ℝ)) := by
  have hrun := run_core_resolved hm.config years mv pa pb cap h1 h2 h3 (by omega) hd
  have hsp : ∀ i, (resolvedTable hm.config years mv pa pb cap).monthly_spending i =
      (resolvedTable hm.config years mv pa pb cap).monthly_rent i
          * (hm.config.management_fee : ℝ)
        + ((resolvedTable hm.config years mv pa pb cap).monthly_rent i
            - (resolvedTable hm.config years mv pa pb cap).monthly_mortgage i)
          * (hm.config.rental_tax_n_depreciation : ℝ)
        + (if (resolvedTable hm.config years mv pa pb cap).month i = 12
            then (hm.config.property_tax_annual : ℝ)
              * (resolvedTable hm.config years mv pa pb cap).market_value i else 0) := by
    intro i
    rw [resolvedTable_spending, calc_property_tax_comm]
  refine ⟨resolvedResult hm.config years mv pa pb cap,
    resolvedTable hm.config years mv pa pb cap, ?_, fun i => rfl, hsp, ?_⟩
  · show (run_core hm.config years).2 = _
    rw [hrun]
  · intro i hi
    rw [hsp i, if_neg hi, add_zero]

/-- Witness for C6 at `cfgEx`, `years = 1`. -/
theorem claim6_witness :
    ∃ res df, (run_simulation hmEx 1).2 = .ok (res, df)
      ∧ (∀ i, df.month i = i % 12 + 1)
      ∧ (∀ i, df.monthly_spending i =
          df.monthly_rent i * (hmEx.config.management_fee : ℝ)
            + (df.monthly_rent i - df.monthly_mortgage i)
              * (hmEx.config.rental_tax_n_depreciation : ℝ)
            + (if df.month i = 12
                then (hmEx.config.property_tax_annual : ℝ) * df.market_value i else 0))
      ∧ (∀ i, df.month i ≠ 12 →
          df.monthly_spending i =
            df.monthly_rent i * (hmEx.config.management_fee : ℝ)
              + (df.monthly_rent i - df.monthly_mortgage i)
                * (hmEx.config.rental_tax_n_depreciation : ℝ)) :=
  claim6_property_tax hmEx 1 500000 20 20 15000 rfl rfl rfl (by decide) hmEx_denom

/-- Claim C7: in a fully populated run, the discount factor at 0-based
position `k` is `(1+discountAnnualRate/12)^(k+1)`, the discounted net
income is `netIncome_k / discountFactor_k`, and the annualized total
return equals
`((sum of discountedNetIncome + discountedCapGain + capital) / capital)^(1/years) - 1`
with the discounted capital gain
`(finalMarketValue*(1-transactionFeeRate) - capital)*(1-capitalGainTaxRate)`
divided by the final record's discount factor. -/
theorem claim7_discounting (hm : HM) (years : ℕ) (mv pa pb cap : ℚ)
    (h1 : hm.config.mkt_value = some mv) (h2 : hm.config.price_to_rent = some (pa, pb))
    (h3 : hm.config.capital = some cap) (hy : 1 ≤ years)
    (hd : (1 + hm.config.mortgage_rate / 12) ^ (12 * years) - 1 ≠ 0) :
    ∃ res df, (run_simulation hm years).2 = .ok (res, df)
      ∧ (∀ k, df.discount_factor k = (1 + (hm.config.interest_rate : ℝ) / 12) ^ (k + 1))
      ∧ (∀ k, df.discounted_net_income k = df.net_income k / df.discount_factor k)
      ∧ res.total_ret =
          (((∑ k ∈ Finset.range (12 * years), df.discounted_net_income k)
            + (df.market_value (12 * years - 1) * (1 - (hm.config.transaction_fee : ℝ))
                - (cap : ℝ)) * (1 - (hm.config.capital_gain : ℝ))
              / df.discount_factor (12 * years - 1)
            + (cap : ℝ)) / (cap : ℝ)) ^ ((1 : ℝ) / (years : ℝ)) - 1 := by
  have hrun := run_core_resolved hm.config years mv pa pb cap h1 h2 h3 (by omega) hd
  refine ⟨resolvedResult hm.config years mv pa pb cap,
    resolvedTable hm.config years mv pa pb cap, ?_, fun k => rfl, fun k => rfl, rfl⟩
  show (run_core hm.config years).2 = _
  rw [hrun]

/-- Witness for C7 at `cfgEx`, `years = 1`. -/
theorem claim7_witness :
    ∃ res df, (run_simulation hmEx 1).2 = .ok (res, df)
      ∧ (∀ k, df.discount_factor k = (1 + (hmEx.config.interest_rate : ℝ) / 12) ^ (k + 1))
      ∧ (∀ k, df.discounted_net_income k = df.net_income k / df.discount_factor k)
      ∧ res.total_ret =
          (((∑ k ∈ Finset.range (12 * 1), df.discounted_net_income k)
            + (df.market_value (12 * 1 - 1) * (1 - (hmEx.config.transaction_fee : ℝ))
                - ((15000 : ℚ) : ℝ)) * (1 - (hmEx.config.capital_gain : ℝ))
              / df.discount_factor (12 * 1 - 1)
            + ((15000 : ℚ) : ℝ)) / ((15000 : ℚ) : ℝ)) ^ ((1 : ℝ) / ((1 : ℕ) : ℝ)) - 1 :=
  claim7_discounting hmEx 1 500000 20 20 15000 rfl rfl rfl (by decide) hmEx_denom

/-- Claim C8: the per-year income-stream mapping of a resolved run has
one entry per year, and the sum of its values equals the sum of
`netIncome` over all `years*12` monthly records — the year grouping
neither drops nor double-counts any month. -/
theorem claim8_income_partition (hm : HM) (years : ℕ) (mv pa pb cap : ℚ)
    (h1 : hm.config.mkt_value = some mv) (h2 : hm.config.price_to_rent = some (pa, pb))
    (h3 : hm.config.capital = some cap) (hy : 1 ≤ years)
    (hd : (1 + hm.config.mortgage_rate / 12) ^ (12 * years) - 1 ≠ 0) :
    ∃ res df, (run_simulation hm years).2 = .ok (res, df)
      ∧ res.income_stream.length = years
      ∧ ((res.income_stream.map Prod.snd).sum
          = ∑ i ∈ Finset.range (12 * years), df.net_income i) := by
  have hrun := run_core_resolved hm.config years mv pa pb cap h1 h2 h3 (by omega) hd
  refine ⟨resolvedResult hm.config years mv pa pb cap,
    resolvedTable hm.config years mv pa pb cap, ?_, ?_, ?_⟩
  · show (run_core hm.config years).2 = _
    rw [hrun]
  · rw [resolvedResult_income_stream, List.length_map, List.length_range]
  · rw [resolvedResult_income_stream, List.map_map]
    have hcomp : (Prod.snd ∘ fun y =>
        ((y + 1 : ℕ), ∑ i ∈ yearFiber (12 * years) (fun i => i / 12 + 1) (y + 1),
          (resolvedTable hm.config years mv pa pb cap).net_income i))
        = fun y => ∑ i ∈ yearFiber (12 * years) (fun i => i / 12 + 1) (y + 1),
            (resolvedTable hm.config years mv pa pb cap).net_income i := rfl
    rw [hcomp, list_range_map_sum, sum_yearFiber]

/-- Witness for C8 at `cfgEx`, `years = 2`. -/
theorem claim8_witness :
    ∃ res df, (run_simulation hmEx 2).2 = .ok (res, df)
      ∧ res.income_stream.length = 2
      ∧ ((res.income_stream.map Prod.snd).sum
          = ∑ i ∈ Finset.range (12 * 2), df.net_income i) :=
  claim8_income_partition hmEx 2 500000 20 20 15000 rfl rfl rfl (by decide)
    (by norm_num [hmEx, cfgEx])

/-- Claim C9: a run never changes the constructor-assigned
configuration (it only sets the `years` and `pretax_df` attributes),
and the returned value is a pure function of (configuration, years):
objects differing only in the run-mutated attributes produce the same
value, and running twice in a row produces the identical value. -/
theorem claim9_immutability (hm : HM) (years : ℕ) (o : Option ℕ) (p : Option PretaxTable) :
    ((run_simulation hm years).1.config = hm.config)
    ∧ ((run_simulation hm years).1.years_attr = some years)
    ∧ ((run_simulation { config := hm.config, years_attr := o, pretax_df := p } years).2
        = (run_simulation hm years).2)
    ∧ ((run_simulation ((run_simulation hm years).1) years).2
        = (run_simulation hm years).2) :=
  ⟨rfl, rfl, rfl, rfl⟩

end RealEstateSim
